import Mathlib

/-!
Verification of the Truedat mood-scoring core (`src/analyze.py`).

The scoring core is pure arithmetic over real-valued audio descriptors; we
embed it shallowly over `ℚ` (Python floats carry exact decimal literals such
as `0.35` and `1e-9`, and every claim below is about exact arithmetic
relations, saturation, and monotonicity, which `ℚ` captures faithfully).
Lists of timbre coefficients become `List ℚ`; the mode string stays a
`String`; the optional high-level model stage of `analyze` becomes an
`Option (ℚ × ℚ)` (energy_model, valence_model), `none` meaning the stage
failed or is unavailable.
-/

namespace Truedat

/-- The `1e-9` epsilon used by `normalize` in `analyze.py`. -/
def eps : ℚ := 1 / 10 ^ 9

/-- `normalize(x, min_val, max_val)` from `analyze.py` line 24-26:
`(x - min_val) / (max_val - min_val + 1e-9)`. -/
def normalize (x min_val max_val : ℚ) : ℚ :=
  (x - min_val) / (max_val - min_val + eps)

/-- `clamp(x, min_val=0.0, max_val=1.0)` from `analyze.py` line 29-31:
`max(min_val, min(max_val, x))`.  The source only ever calls it with the
default bounds `0, 1`; we pass them explicitly. -/
def clamp (x min_val max_val : ℚ) : ℚ :=
  max min_val (min max_val x)

/-- `compute_valence(mode, spectral_centroid, valence_model, mfccs)` from
`analyze.py` line 34-49.  `np.mean(mfccs[:5])` is the sum of the first
`min 5 (length mfccs)` elements divided by that count (Python slicing takes
what is available; `np.mean` of the slice is its sum over its length). -/
def compute_valence (mode : String) (spectral_centroid valence_model : ℚ)
    (mfccs : List ℚ) : ℚ :=
  let mode_flag : ℚ := if mode = "major" then 1 else 0
  let mfcc_brightness : ℚ := (mfccs.take 5).sum / ((mfccs.take 5).length : ℚ)
  clamp (0.35 * mode_flag + 0.25 * spectral_centroid + 0.20 * valence_model +
    0.20 * mfcc_brightness) 0 1

/-- The weighted sum inside `compute_valence` before the final `clamp`
(the argument of `clamp` on lines 44-48 of `analyze.py`). -/
def valence_raw (mode : String) (spectral_centroid valence_model : ℚ)
    (mfccs : List ℚ) : ℚ :=
  0.35 * (if mode = "major" then (1 : ℚ) else 0) + 0.25 * spectral_centroid +
    0.20 * valence_model + 0.20 * ((mfccs.take 5).sum / ((mfccs.take 5).length : ℚ))

/-- `compute_arousal(bpm, loudness, spectral_flux, energy_model)` from
`analyze.py` line 52-64. -/
def compute_arousal (bpm loudness spectral_flux energy_model : ℚ) : ℚ :=
  clamp (0.4 * bpm + 0.3 * loudness + 0.2 * spectral_flux + 0.1 * energy_model) 0 1

/-- The raw per-file descriptors that the external analysis library hands to
the scoring portion of `analyze` (lines 67-93 of `analyze.py`). -/
structure RawFeatures where
  bpm : ℚ
  loudness : ℚ
  spectral_centroid : ℚ
  spectral_flux : ℚ
  key : String
  scale : String
  mfccs : List ℚ

/-- The scoring tail of `analyze` (lines 96-114 of `analyze.py`): the
high-level model stage either succeeds with `(energy_model, valence_model)`
(`some`) or fails (`none`, the broad `except` branch), in which case both
fall back to `0.5`; then the four fixed reference-range normalizations and
the two scorers run.  Returns `(valence, arousal)` before output rounding. -/
def analyzeMood (f : RawFeatures) (high : Option (ℚ × ℚ)) : ℚ × ℚ :=
  let models : ℚ × ℚ :=
    match high with
    | some p => p
    | none => (0.5, 0.5)
  let bpm_n := normalize f.bpm 60 200
  let loud_n := normalize f.loudness (-60) 0
  let cent_n := normalize f.spectral_centroid 500 5000
  let flux_n := normalize f.spectral_flux 0 1
  let arousal := compute_arousal bpm_n loud_n flux_n models.1
  let valence := compute_valence f.scale cent_n models.2 f.mfccs
  (valence, arousal)

/-- Rounding to 3 decimal places, as `round(float(v), 3)` in the output
record of `analyze` (lines 106-114).  Python rounds half to even; at every
value a claim evaluates this on, `x * 1000` is not a half-integer, where
round-half-up (below) and round-half-to-even coincide. -/
def round3 (x : ℚ) : ℚ :=
  (⌊x * 1000 + 1 / 2⌋ : ℚ) / 1000

/-- The `valence` and `arousal` fields of the record returned by `analyze`
(lines 106-114 of `analyze.py`): the mood vector rounded to 3 decimals. -/
def analyzeOutput (f : RawFeatures) (high : Option (ℚ × ℚ)) : ℚ × ℚ :=
  let va := analyzeMood f high
  (round3 va.1, round3 va.2)

/-! ### Helper lemmas -/

/-- `clamp` into `[0,1]` always lands in `[0,1]`. -/
theorem clamp01_mem (x : ℚ) : 0 ≤ clamp x 0 1 ∧ clamp x 0 1 ≤ 1 := by
  constructor
  · exact le_max_left 0 _
  · exact max_le (by norm_num) (min_le_left 1 x)

/-- `clamp` into `[0,1]` is monotone. -/
theorem clamp01_mono {x y : ℚ} (h : x ≤ y) : clamp x 0 1 ≤ clamp y 0 1 :=
  max_le_max le_rfl (min_le_min le_rfl h)

/-- Replacing one element of a list by something at least as large does not
decrease the sum of any prefix. -/
theorem sum_take_set_ge (l : List ℚ) (i : ℕ) (x : ℚ) (n : ℕ)
    (h : l.getD i 0 ≤ x) : (l.take n).sum ≤ ((l.set i x).take n).sum := by
  induction l generalizing i n with
  | nil => simp
  | cons a tl ih =>
    cases i with
    | zero =>
      cases n with
      | zero => simp
      | succ m =>
        simp only [List.set, List.take_succ_cons, List.sum_cons]
        have ha : a ≤ x := by simpa using h
        exact add_le_add ha le_rfl
    | succ j =>
      cases n with
      | zero => simp
      | succ m =>
        simp only [List.set, List.take_succ_cons, List.sum_cons]
        exact add_le_add le_rfl (ih j m (by simpa using h))

/-- Replacing one element of the timbre list by something at least as large
does not decrease the mean over the first 5 elements. -/
theorem mean5_set_ge (l : List ℚ) (i : ℕ) (x : ℚ) (h : l.getD i 0 ≤ x) :
    (l.take 5).sum / ((l.take 5).length : ℚ) ≤
      ((l.set i x).take 5).sum / (((l.set i x).take 5).length : ℚ) := by
  have hlen : ((l.set i x).take 5).length = (l.take 5).length := by
    simp [List.length_take, List.length_set]
  rw [hlen]
  rcases Nat.eq_zero_or_pos (l.take 5).length with h0 | hpos
  · have hone : l.take 5 = [] := List.length_eq_zero.mp h0
    have htwo : (l.set i x).take 5 = [] := by
      refine List.length_eq_zero.mp ?_
      rw [hlen, h0]
    rw [hone, htwo]
  · have hc : (0 : ℚ) < ((l.take 5).length : ℚ) := by exact_mod_cast hpos
    exact (div_le_div_iff_of_pos_right hc).mpr (sum_take_set_ge l i x 5 h)

/-! ### Claims -/

/-- C1: for every input (mode, normalized centroid, valence model, timbre
coefficients, normalized bpm, loudness, flux, energy model), the valence
returned by `compute_valence` and the arousal returned by `compute_arousal`
lie in `[0, 1]`, even when the normalized inputs fall outside `[0, 1]`:
the quantification is over all rationals, with no range restriction. -/
theorem outputs_in_unit_interval (mode : String) (cent vm : ℚ)
    (mfccs : List ℚ) (bpm loudness flux em : ℚ) :
    (0 ≤ compute_valence mode cent vm mfccs ∧
      compute_valence mode cent vm mfccs ≤ 1) ∧
    (0 ≤ compute_arousal bpm loudness flux em ∧
      compute_arousal bpm loudness flux em ≤ 1) :=
  ⟨clamp01_mem _, clamp01_mem _⟩

/-- C2 (code behavior at the failing input): with only 3 timbre coefficients
supplied, the reference `compute_valence` performs no InsufficientFeatures
check: `mfccs[:5]` silently takes the 3 available elements and the function
returns the numeric valence `0.35` instead of reporting an error. -/
theorem short_mfccs_numeric_result :
    compute_valence "major" 0 0 [0, 0, 0] = 0.35 := by
  norm_num [compute_valence, clamp, min_def, max_def]

/-- C3 (code behavior at the failing input): for a mode value outside
`{major, minor}` such as `"dorian"`, the reference `compute_valence` raises
no InvalidMode error: the test `mode == "major"` silently maps every other
string to the default mode flag `0`, so the result coincides with the
`"minor"` result for all remaining inputs. -/
theorem invalid_mode_silent_default (cent vm : ℚ) (mfccs : List ℚ) :
    compute_valence "dorian" cent vm mfccs =
      compute_valence "minor" cent vm mfccs := by
  have h1 : ¬("dorian" : String) = "major" := by decide
  have h2 : ¬("minor" : String) = "major" := by decide
  simp only [compute_valence, if_neg h1, if_neg h2]

/-- C4: for mode in `{major, minor}` and at least 5 timbre coefficients,
`compute_valence` returns
`clamp(0.35·modeFlag + 0.25·cent + 0.20·vm + 0.20·brightness, 0, 1)` with
`modeFlag = 1` iff the mode is major and `brightness` the arithmetic mean
(sum over 5) of the first 5 coefficients; elements beyond the fifth have no
effect. -/
theorem valence_formula (mode : String) (cent vm : ℚ) (mfccs : List ℚ)
    (_hmode : mode = "major" ∨ mode = "minor") (hlen : 5 ≤ mfccs.length) :
    compute_valence mode cent vm mfccs =
      clamp (0.35 * (if mode = "major" then 1 else 0) + 0.25 * cent +
        0.20 * vm + 0.20 * ((mfccs.take 5).sum / 5)) 0 1 ∧
    compute_valence mode cent vm mfccs =
      compute_valence mode cent vm (mfccs.take 5) := by
  constructor
  · have hl : (((mfccs.take 5).length : ℕ) : ℚ) = 5 := by
      rw [List.length_take, Nat.min_eq_left hlen]
      norm_num
    simp only [compute_valence, hl]
  · simp only [compute_valence, List.take_take]
    norm_num

/-- C4 witness: the formula and the take-5 irrelevance evaluated on a
concrete 6-element coefficient list. -/
theorem valence_formula_witness :
    compute_valence "major" 0 0 [1, 2, 3, 4, 5, 6] =
      clamp (0.35 * (if ("major" : String) = "major" then 1 else 0) +
        0.25 * 0 + 0.20 * 0 +
        0.20 * ((([1, 2, 3, 4, 5, 6] : List ℚ).take 5).sum / 5)) 0 1 ∧
    compute_valence "major" 0 0 [1, 2, 3, 4, 5, 6] =
      compute_valence "major" 0 0 (([1, 2, 3, 4, 5, 6] : List ℚ).take 5) :=
  valence_formula "major" 0 0 [1, 2, 3, 4, 5, 6] (Or.inl rfl) (by decide)

/-- C5: for every input, `compute_arousal` returns
`clamp(0.4·bpm + 0.3·loudness + 0.2·flux + 0.1·energyModel, 0, 1)`, and the
arousal weights `0.4, 0.3, 0.2, 0.1` sum to `1.0` within `1e-9`. -/
theorem arousal_formula_and_weight_sum (bpm loudness flux em : ℚ) :
    compute_arousal bpm loudness flux em =
      clamp (0.4 * bpm + 0.3 * loudness + 0.2 * flux + 0.1 * em) 0 1 ∧
    |(0.4 + 0.3 + 0.2 + 0.1 : ℚ) - 1| ≤ 1 / 10 ^ 9 := by
  refine ⟨rfl, ?_⟩
  norm_num

/-- C6: the scoring tail of `analyze` with the high-level model stage failed
(`none`) produces exactly the same mood vector as with the stage returning
`(0.5, 0.5)`, for every feature set: the failure is absorbed by the `0.5`
fallback and never propagated (the function is total and returns a complete
pair in both cases). -/
theorem fallback_equivalence (f : RawFeatures) :
    analyzeMood f none = analyzeMood f (some (0.5, 0.5)) := rfl

/-- C7: `normalize x lo hi` equals `(x - lo) / (hi - lo + 1e-9)` for all
rational inputs, and in the degenerate case `lo = hi` it does not divide by
zero: it returns the finite value `(x - lo) · 10⁹`. -/
theorem normalize_total_formula (x lo hi : ℚ) :
    normalize x lo hi = (x - lo) / (hi - lo + 1 / 10 ^ 9) ∧
    normalize x lo lo = (x - lo) * 10 ^ 9 := by
  constructor
  · rfl
  · show (x - lo) / (lo - lo + eps) = (x - lo) * 10 ^ 9
    rw [eps]
    norm_num
    ring

/-- C8: `compute_valence` is `clamp` of the raw weighted sum `valence_raw`,
and holding the normalized centroid, the valence model and the timbre
coefficients fixed, the raw valence with `mode = "major"` exceeds the raw
valence with `mode = "minor"` by exactly `0.35`. -/
theorem mode_gap_raw (cent vm : ℚ) (mfccs : List ℚ) :
    (∀ mode, compute_valence mode cent vm mfccs =
      clamp (valence_raw mode cent vm mfccs) 0 1) ∧
    valence_raw "major" cent vm mfccs - valence_raw "minor" cent vm mfccs
      = 0.35 := by
  constructor
  · intro mode
    rfl
  · have h2 : ¬("minor" : String) = "major" := by decide
    simp only [valence_raw, if_pos rfl, if_neg h2]
    norm_num

/-- The feature set of example scenario 2 of the spec: `bpm = 200`,
`loudness = 0`, `spectralCentroid = 5000`, `spectralFlux = 1`,
`mode = major`, `timbreCoefficients = [1, 1, 1, 1, 1]` (the key string does
not enter the mood computation). -/
def scenario2 : RawFeatures :=
  ⟨200, 0, 5000, 1, "C", "major", [1, 1, 1, 1, 1]⟩

/-- C9: on scenario 2 with the high-level model stage returning
`energyModel = 1` and `valenceModel = 1`, the `valence` and `arousal` fields
reported by `analyze` (normalization with the fixed reference ranges,
scoring, then the 3-decimal output rounding of lines 106-114) are exactly
`1.000` and `1.000`.  The pre-rounding scores fall short of `1` by less than
`10⁻⁹` because of the `ε` term in `normalize`. -/
theorem scenario2_reports_ones :
    analyzeOutput scenario2 (some (1, 1)) = (1, 1) := by
  norm_num [analyzeOutput, analyzeMood, scenario2, compute_valence,
    compute_arousal, normalize, clamp, eps, round3, min_def, max_def]

/-- C10: both scorers are monotone nondecreasing in each real-valued input:
valence in the normalized centroid, the valence model, and each of the first
5 timbre coefficients (replacing one by a larger value, the rest fixed);
arousal in normalized bpm, loudness, flux and the energy model. -/
theorem scorers_monotone :
    (∀ (mode : String) (c c' vm : ℚ) (mfccs : List ℚ), c ≤ c' →
      compute_valence mode c vm mfccs ≤ compute_valence mode c' vm mfccs) ∧
    (∀ (mode : String) (c vm vm' : ℚ) (mfccs : List ℚ), vm ≤ vm' →
      compute_valence mode c vm mfccs ≤ compute_valence mode c vm' mfccs) ∧
    (∀ (mode : String) (c vm : ℚ) (mfccs : List ℚ) (i : ℕ) (x : ℚ),
      i < 5 → mfccs.getD i 0 ≤ x →
      compute_valence mode c vm mfccs ≤
        compute_valence mode c vm (mfccs.set i x)) ∧
    (∀ (b b' lo fl em : ℚ), b ≤ b' →
      compute_arousal b lo fl em ≤ compute_arousal b' lo fl em) ∧
    (∀ (b lo lo' fl em : ℚ), lo ≤ lo' →
      compute_arousal b lo fl em ≤ compute_arousal b lo' fl em) ∧
    (∀ (b lo fl fl' em : ℚ), fl ≤ fl' →
      compute_arousal b lo fl em ≤ compute_arousal b lo fl' em) ∧
    (∀ (b lo fl em em' : ℚ), em ≤ em' →
      compute_arousal b lo fl em ≤ compute_arousal b lo fl em') := by
  refine ⟨?_, ?_, ?_, ?_, ?_, ?_, ?_⟩
  · intro mode c c' vm mfccs h
    simp only [compute_valence]
    apply clamp01_mono
    have := mul_le_mul_of_nonneg_left h (show (0 : ℚ) ≤ 0.25 by norm_num)
    linarith
  · intro mode c vm vm' mfccs h
    simp only [compute_valence]
    apply clamp01_mono
    have := mul_le_mul_of_nonneg_left h (show (0 : ℚ) ≤ 0.20 by norm_num)
    linarith
  · intro mode c vm mfccs i x _ h
    simp only [compute_valence]
    apply clamp01_mono
    have := mul_le_mul_of_nonneg_left (mean5_set_ge mfccs i x h)
      (show (0 : ℚ) ≤ 0.20 by norm_num)
    linarith
  · intro b b' lo fl em h
    simp only [compute_arousal]
    apply clamp01_mono
    have := mul_le_mul_of_nonneg_left h (show (0 : ℚ) ≤ 0.4 by norm_num)
    linarith
  · intro b lo lo' fl em h
    simp only [compute_arousal]
    apply clamp01_mono
    have := mul_le_mul_of_nonneg_left h (show (0 : ℚ) ≤ 0.3 by norm_num)
    linarith
  · intro b lo fl fl' em h
    simp only [compute_arousal]
    apply clamp01_mono
    have := mul_le_mul_of_nonneg_left h (show (0 : ℚ) ≤ 0.2 by norm_num)
    linarith
  · intro b lo fl em em' h
    simp only [compute_arousal]
    apply clamp01_mono
    have := mul_le_mul_of_nonneg_left h (show (0 : ℚ) ≤ 0.1 by norm_num)
    linarith

/-- C10 witness: monotonicity instantiated at concrete inputs, one instance
per scorer argument. -/
theorem scorers_monotone_witness :
    compute_valence "major" 0 (1 / 2) [0, 0, 0, 0, 0] ≤
      compute_valence "major" 1 (1 / 2) [0, 0, 0, 0, 0] ∧
    compute_valence "major" 0 0 [0, 0, 0, 0, 0] ≤
      compute_valence "major" 0 1 [0, 0, 0, 0, 0] ∧
    compute_valence "minor" 0 0 [0, 0, 0, 0, 0] ≤
      compute_valence "minor" 0 0 (([0, 0, 0, 0, 0] : List ℚ).set 2 1) ∧
    compute_arousal 0 0 0 0 ≤ compute_arousal 1 0 0 0 ∧
    compute_arousal 0 0 0 0 ≤ compute_arousal 0 1 0 0 ∧
    compute_arousal 0 0 0 0 ≤ compute_arousal 0 0 1 0 ∧
    compute_arousal 0 0 0 0 ≤ compute_arousal 0 0 0 1 :=
  ⟨scorers_monotone.1 "major" 0 1 (1 / 2) [0, 0, 0, 0, 0] (by norm_num),
   scorers_monotone.2.1 "major" 0 0 1 [0, 0, 0, 0, 0] (by norm_num),
   scorers_monotone.2.2.1 "minor" 0 0 [0, 0, 0, 0, 0] 2 1 (by norm_num)
     (by norm_num [List.getD]),
   scorers_monotone.2.2.2.1 0 1 0 0 0 (by norm_num),
   scorers_monotone.2.2.2.2.1 0 0 1 0 0 (by norm_num),
   scorers_monotone.2.2.2.2.2.1 0 0 0 1 0 (by norm_num),
   scorers_monotone.2.2.2.2.2.2 0 0 0 0 1 (by norm_num)⟩

end Truedat
